import Mathlib

/-!
Shallow embedding of src/app/client/components/WidgetFrame.ts: the access
control model (AccessLevel, MinimumLevel, MethodAccess), the access gate
(wrapObject, throwError), the WidgetFrame bridge lifecycle (constructor,
exposeAPI, exposeMethod, message handling, disposal) and the event
notification subsystem (BaseEventSource, RecordNotifier, TableNotifier,
ConfigNotifier).
-/

instance exceptDecEq {ε α : Type} [DecidableEq ε] [DecidableEq α] :
    DecidableEq (Except ε α) := fun x y =>
  match x, y with
  | Except.error a, Except.error b => decidable_of_iff (a = b) (by simp)
  | Except.error _, Except.ok _ => Decidable.isFalse (by simp)
  | Except.ok _, Except.error _ => Decidable.isFalse (by simp)
  | Except.ok a, Except.ok b => decidable_of_iff (a = b) (by simp)

namespace GristWidgetFrame

/-- Modelled from the spec: the AccessLevel enumeration lives in
app/common/CustomWidget, which is not under src. The spec gives the total
order of levels as "none < read_table < full". -/
inductive AccessLevel
  | none
  | read_table
  | full
deriving DecidableEq, Repr

/-- Numeric rank of a level under the total order none < read_table < full. -/
def AccessLevel.toNat : AccessLevel → Nat
  | .none => 0
  | .read_table => 1
  | .full => 2

/-- Wire string of a level. Modelled from the spec: the access level is
serialized as a short string token. -/
def AccessLevel.str : AccessLevel → String
  | .none => "none"
  | .read_table => "read table"
  | .full => "full"

/-- Modelled from the spec: isSatisfied from app/common/CustomWidget (not
under src). The granted level satisfies the minimum iff the minimum is at
or below it under the total order none < read_table < full. -/
def isSatisfied (access minimum : AccessLevel) : Bool :=
  minimum.toNat ≤ access.toNat

/-- JS falsiness of the optional method-name argument: a missing argument
(undefined) and the empty string are both falsy in the test `if (!method)`. -/
def jsFalsyName : Option String → Bool
  | Option.none => true
  | Option.some s => s = ""

/-- A checker can return a boolean verdict or throw (MethodAccess.check
throws when the method name is missing). Mirrors the AccessChecker
interface of WidgetFrame.ts consumers, which call check inside ordinary
control flow where an exception propagates. -/
def Checker : Type := AccessLevel → Option String → Except String Bool

/-- MinimumLevel checker of WidgetFrame.ts: check(access) = isSatisfied(access, minimum);
the method name is ignored. -/
structure MinimumLevel where
  minimum : AccessLevel

def MinimumLevel.check (c : MinimumLevel) (access : AccessLevel) : Bool :=
  isSatisfied access c.minimum

def MinimumLevel.checker (c : MinimumLevel) : Checker :=
  fun access _ => Except.ok (c.check access)

/-- MethodAccess of WidgetFrame.ts: a Map from method matcher (specific
method name, or the wildcard "*") to the minimum required level. The map is
modelled as an association list with set-overwrite semantics. -/
structure MethodAccess where
  entries : List (String × AccessLevel)

/-- Map.get over the association list: the binding written by the latest
set wins, because require removes any previous binding for the key. -/
def MethodAccess.get (t : MethodAccess) (key : String) : Option AccessLevel :=
  t.entries.lookup key

/-- MethodAccess.require(level, method = "*"): Map.set semantics, the new
binding replaces any previous binding of the same matcher. -/
def MethodAccess.require (t : MethodAccess) (level : AccessLevel)
    (method : String := "*") : MethodAccess :=
  ⟨(method, level) :: t.entries.filter (fun p => p.1 ≠ method)⟩

def MethodAccess.empty : MethodAccess := ⟨[]⟩

/-- MethodAccess.check of WidgetFrame.ts: throws when the method name is
falsy; otherwise exact-name entry first, else wildcard entry, else deny. -/
def MethodAccess.check (t : MethodAccess) (access : AccessLevel)
    (method : Option String) : Except String Bool :=
  if jsFalsyName method then
    Except.error "Method name is required for MethodAccess check"
  else
    match t.get (method.getD "") with
    | Option.some minimum => Except.ok (isSatisfied access minimum)
    | Option.none =>
      match t.get "*" with
      | Option.some minimum => Except.ok (isSatisfied access minimum)
      | Option.none => Except.ok false

def MethodAccess.checker (t : MethodAccess) : Checker :=
  fun access method => t.check access method

/-- Rule resolution as the spec words it: the exact-name entry if present,
else the wildcard entry if present, else nothing (implicit deny). Stated
separately from MethodAccess.check so the two can be compared. -/
def resolveRule (t : MethodAccess) (method : String) : Option AccessLevel :=
  (t.get method).orElse (fun _ => t.get "*")

/-- GristDocAPIImpl.defaultAccess of WidgetFrame.ts: getDocName at
read_table, every other method at full. -/
def GristDocAPIdefaultAccess : MethodAccess :=
  (MethodAccess.empty.require AccessLevel.read_table "getDocName").require AccessLevel.full

/-- throwError of WidgetFrame.ts: the message of the Error thrown on a
denied call. It mentions the current access level and nothing else. -/
def throwErrorMsg (access : AccessLevel) : String :=
  "Access not granted. Current access level " ++ access.str

/-- An underlying implementation: maps a method name and an argument list
to a result or a thrown business error. -/
def Impl (α : Type) : Type := String → List α → Except String α

/-- Observable outcome of one call through the wrapObject Proxy: the value
returned (Option.none models the JS undefined returned for the then probe)
or the error thrown, whether the underlying implementation ran, and
whether the access checker was evaluated. -/
structure GateOutcome (α : Type) where
  result : Except String (Option α)
  implCalled : Bool
  checkerCalled : Bool
deriving DecidableEq

/-- wrapObject of WidgetFrame.ts, as the semantics of one property access
plus invocation on the Proxy: the get trap returns a closure; invoking it
first short-circuits the method name "then" to undefined, then evaluates
the checker against the access level the wrapper was built with, and only
on approval calls through to the target with all arguments. -/
def wrapObjectCall (impl : Impl α) (accessChecker : Checker)
    (access : AccessLevel) (methodName : String) (args : List α) : GateOutcome α :=
  if methodName = "then" then
    { result := Except.ok Option.none, implCalled := false, checkerCalled := false }
  else
    match accessChecker access (Option.some methodName) with
    | Except.error e =>
      { result := Except.error e, implCalled := false, checkerCalled := true }
    | Except.ok true =>
      { result := (impl methodName args).map Option.some,
        implCalled := true, checkerCalled := true }
    | Except.ok false =>
      { result := Except.error (throwErrorMsg access),
        implCalled := false, checkerCalled := true }

/-- Message type tags of the transport envelope. Modelled from the spec:
the bridge distinguishes at minimum the ready signal from ordinary call,
response and other message types (MsgType comes from grain-rpc, an
external dependency). -/
inductive MsgType
  | ready
  | rpcCall
  | rpcRespond
  | custom
deriving DecidableEq, Repr

/-- Inbound message envelope: destination tag (Option.none models a field
that was never set, Option.some a present field), type tag and payload. -/
structure Message where
  mdest : Option String
  mtype : MsgType
  payload : String
deriving DecidableEq, Repr

/-- One inbound browser message event: whether it originates from the
content window of the attached iframe, and its data. -/
structure InEvent where
  fromIframe : Bool
  data : Message
deriving DecidableEq, Repr

/-- Modelled from the spec: grain-rpc (external) forwards a message whose
destination tag is set and non-empty to a registered forwarder, and
dispatches a message with an absent or empty (falsy) destination locally.
This is the routing observation downstream of the bridge. -/
def routesLocally (m : Message) : Bool :=
  match m.mdest with
  | Option.none => true
  | Option.some s => s = ""

/-- What downstream routing and dispatch observe of a message: the routing
decision, the type and the payload. Two messages with this same view are
handled identically by the local dispatch. -/
def Message.obsView (m : Message) : Bool × MsgType × String :=
  (routesLocally m, m.mtype, m.payload)

/-- The mdest-clearing step of WidgetFrame._onMessage: a message addressed
to the reserved tag "grist" has that destination wiped (set to the empty
string); any other message is passed on unchanged. -/
def clearGrist (m : Message) : Message :=
  if m.mdest = Option.some "grist" then { m with mdest := Option.some "" } else m

/-- An implementation registered through exposeAPI: the wrapped object
produced by wrapObject closed over the checker and over the value that
this._options.access had at registration time. -/
structure ImplReg where
  name : String
  impl : Impl String
  checker : Checker
  capturedAccess : AccessLevel

/-- A function registered through exposeMethod: the closure reads the
current this._options.access each time it runs. -/
structure FuncReg where
  name : String
  handler : List String → Except String String
  checker : Checker

/-- State of a WidgetFrame bridge: the current access level of its options
(mutable, read by exposeMethod closures and useEvents at call time), the
registrations held by the grain-rpc object, whether the iframe was built,
whether the outbound sender was replaced by noop, and disposal. -/
structure Frame where
  access : AccessLevel
  implRegs : List ImplReg
  funcRegs : List FuncReg
  attached : Bool
  sendNoop : Bool
  disposed : Bool

/-- The WidgetFrame constructor: `_options.access = _options.access || AccessLevel.none`.
Every AccessLevel enum value is a truthy string, so a present level is
kept and only an absent one defaults to none. No registrations exist yet,
the sender is live, nothing is disposed. -/
def mkFrame (access : Option AccessLevel) : Frame :=
  { access := match access with
      | Option.none => AccessLevel.none
      | Option.some a => a
    implRegs := [], funcRegs := [],
    attached := false, sendNoop := false, disposed := false }

/-- buildDom: the iframe now exists and messages from its content window
pass the source test of _onMessage. -/
def Frame.buildDom (f : Frame) : Frame := { f with attached := true }

/-- rpc.registerImpl set semantics over the registration list: a new
registration for a name replaces any previous one. -/
def registerImpl (regs : List ImplReg) (r : ImplReg) : List ImplReg :=
  r :: regs.filter (fun q => q.name ≠ r.name)

/-- rpc.unregisterImpl: removes the registration for the name; removing a
name that is not registered leaves the list unchanged. -/
def unregisterImpl (regs : List ImplReg) (name : String) : List ImplReg :=
  regs.filter (fun q => q.name ≠ name)

/-- WidgetFrame.exposeAPI: registers wrapObject(api, access, this._options.access)
under the name; the third argument is the current access level, passed by
value, so the wrapper keeps the level of registration time. Disposal of
the frame unregisters the name (the onDispose callback). -/
def Frame.exposeAPI (f : Frame) (name : String) (api : Impl String)
    (access : Checker) : Frame :=
  { f with implRegs := registerImpl f.implRegs ⟨name, api, access, f.access⟩ }

/-- WidgetFrame.exposeMethod: registers a closure that re-reads
this._options.access on every call; no unregistration is hooked to
disposal for it. -/
def Frame.exposeMethod (f : Frame) (name : String)
    (handler : List String → Except String String) (access : Checker) : Frame :=
  { f with funcRegs := ⟨name, handler, access⟩ :: f.funcRegs.filter (fun q => q.name ≠ name) }

/-- The externally supplied access level changes mid-session: the bridge
reads _options.access, owned by the host session (the spec: supplied at
construction and may be replaced at runtime). -/
def Frame.setAccess (f : Frame) (a : AccessLevel) : Frame := { f with access := a }

/-- Disposal, as the onDispose callbacks of WidgetFrame: stop listening to
window messages, replace the outbound sender with noop, and run the
unregisterImpl callback of every exposeAPI registration. Registrations
made by exposeMethod have no unregistration callback and stay. Modelled
from the spec for the base class part: DisposableWithEvents (not under
src) runs disposal callbacks exactly once, so disposing an already
disposed frame is a no-op. -/
def Frame.dispose (f : Frame) : Frame :=
  if f.disposed then f
  else { f with disposed := true, sendNoop := true,
                implRegs := (f.implRegs.map ImplReg.name).foldl unregisterImpl f.implRegs }

/-- The guard of WidgetFrame._onMessage: the iframe exists, the event
source is its content window, and the frame is not disposed. -/
def Frame.accepts (f : Frame) (e : InEvent) : Bool :=
  f.attached && e.fromIframe && !f.disposed

/-- Observable effects of one _onMessage run: whether the ready event was
triggered, and the message handed to rpc.receiveMessage, if any. -/
structure MsgEffects where
  readyTriggered : Bool
  forwarded : Option Message
deriving DecidableEq, Repr

/-- WidgetFrame._onMessage: when the guard passes, clear a "grist"
destination, trigger ready whenever the type tag is the ready type (no
once-guard exists), and hand the message to rpc.receiveMessage; otherwise
do nothing. -/
def Frame.onMessage (f : Frame) (e : InEvent) : MsgEffects :=
  if f.accepts e then
    { readyTriggered := e.data.mtype = MsgType.ready,
      forwarded := Option.some (clearGrist e.data) }
  else
    { readyTriggered := false, forwarded := Option.none }

/-- Effects of a whole inbound event sequence: the frame state is not
changed by _onMessage, so the effects are computed eventwise. -/
def Frame.onMessages (f : Frame) (es : List InEvent) : List MsgEffects :=
  es.map f.onMessage

/-- Dispatch of an inbound RPC call to an implementation registered with
exposeAPI: grain-rpc looks the name up and invokes the named method on the
wrapped object, which is the Proxy built by wrapObject. -/
def Frame.callImpl (f : Frame) (name method : String) (args : List String) :
    Option (GateOutcome String) :=
  ((f.implRegs.find? (fun r => r.name = name)).map
    (fun r => wrapObjectCall r.impl r.checker r.capturedAccess method args))

/-- Dispatch of an inbound RPC call to a function registered with
exposeMethod: the closure checks access.check(this._options.access, "invoke")
against the CURRENT level of the frame, then runs the handler or throws. -/
def Frame.callFunc (f : Frame) (name : String) (args : List String) :
    Option (Except String String) :=
  ((f.funcRegs.find? (fun r => r.name = name)).map
    (fun r =>
      match r.checker f.access (Option.some "invoke") with
      | Except.error e => Except.error e
      | Except.ok true => r.handler args
      | Except.ok false => Except.error (throwErrorMsg f.access)))

/-- Host-side view state read by the record and table notifiers: the table
identity of the view section, the cursor row id, and the sorted row set. -/
structure TableView where
  tableId : String
  cursorRowId : Nat
  rows : List Nat
deriving DecidableEq, Repr

/-- The `rowId || undefined` step of the notifier updates: a zero row id
is falsy in JS and is replaced by undefined. -/
def rowIdOut (rowId : Nat) : Option Nat :=
  if rowId = 0 then Option.none else Option.some rowId

/-- A notification pushed through the event channel: either the record
shaped state of RecordNotifier and TableNotifier, or the options shaped
state of ConfigNotifier. -/
inductive Emission
  | record (tableId : String) (rowId : Option Nat) (rows : List Nat) (dataChange : Bool)
  | config (options : Option String) (accessLevel : AccessLevel)
deriving DecidableEq, Repr

/-- A concrete notifier over host state of type σ, as the three datums
that distinguish the subclasses of BaseEventSource: whether the subclass
overrides _ready to call the debounced update (TableNotifier and
ConfigNotifier do, RecordNotifier keeps the no-op of BaseEventSource);
the _update body, which reads the CURRENT host state when it finally
runs; and whether one observed change of the state, from its previous to
its current value, makes the change listener call the debounced update
(the plain subscriptions of RecordNotifier and TableNotifier always do;
the listener of ConfigNotifier first compares the two values with
isEqual and returns without scheduling when they are equal). -/
structure NotifierModel (σ : Type) where
  readySchedulesUpdate : Bool
  update : σ → Emission
  schedules : σ → σ → Bool

/-- RecordNotifier of WidgetFrame.ts: debounced update on cursor change,
with no guard in the subscription callback; _ready is NOT overridden; the
state is {tableId, rowId or undefined, dataChange: false}. The row set is
carried in the emission model so that record and table emissions live in
one type; RecordNotifier reads it from the same view. -/
def RecordNotifier : NotifierModel TableView :=
  { readySchedulesUpdate := false,
    update := fun v => Emission.record v.tableId (rowIdOut v.cursorRowId) v.rows false,
    schedules := fun _ _ => true }

/-- TableNotifier of WidgetFrame.ts: debounced update on field list, row
notify and row set changes, with no guard in any of the three
subscription callbacks; _ready IS overridden to call the debounced
update; the state is {tableId, rowId or undefined, dataChange: true}. -/
def TableNotifier : NotifierModel TableView :=
  { readySchedulesUpdate := true,
    update := fun v => Emission.record v.tableId (rowIdOut v.cursorRowId) v.rows true,
    schedules := fun _ _ => true }

/-- ConfigNotifier of WidgetFrame.ts: its listener on the current config
receives (cur, prev) and returns without scheduling when isEqual(prev, cur);
_ready IS overridden; the state is {options, settings: {accessLevel}}.
Modelled from the spec for the comparison: lodash isEqual (external) is
deep structural equality, which on the modelled options value is equality. -/
def ConfigNotifier (accessLevel : AccessLevel) : NotifierModel (Option String) :=
  { readySchedulesUpdate := true,
    update := fun o => Emission.config o accessLevel,
    schedules := fun prev cur => prev ≠ cur }

/-- One observed state change within a turn: the state advances by the
mutation, and the debounced update becomes scheduled if it already was or
if the change listener of the notifier schedules it for this change. -/
def turnStep (n : NotifierModel σ) (acc : σ × Bool) (m : σ → σ) : σ × Bool :=
  (m acc.1, acc.2 || n.schedules acc.1 (m acc.1))

/-- Modelled from the spec for the scheduling part: lodash debounce with
zero wait (external) coalesces every call made within one scheduling turn
into a single trailing invocation at the end of the turn. One turn in
which the underlying state receives the given mutations, each observed by
the change listener of the notifier: the state and the scheduled flag are
folded through the mutations, and at the end of the turn _update runs
once if it was scheduled at all and the notifier is not disposed, reading
the final state. Returns the final state and the emissions of the turn. -/
def turnEmissions (n : NotifierModel σ) (disposed : Bool) (s : σ)
    (muts : List (σ → σ)) : σ × List Emission :=
  let r := muts.foldl (turnStep n) (s, false)
  (r.1, if r.2 = true ∧ disposed = false then [n.update r.1] else [])

/-- The turn in which the ready event of the frame fires and no underlying
state changes: the _ready handler of the notifier runs (a no-op unless the
subclass overrides it to schedule the debounced update); at the end of the
turn _update runs once if it was scheduled and the notifier is not
disposed. -/
def readyEmissions (n : NotifierModel σ) (disposed : Bool) (s : σ) : List Emission :=
  if n.readySchedulesUpdate ∧ disposed = false then [n.update s] else []

/-! Concrete example inputs used by counterexamples and witnesses. -/

/-- An underlying implementation that answers every method. -/
def implConst : Impl String := fun _ _ => Except.ok "impl-result"

/-- A checker that denies every call without throwing. -/
def denyAll : Checker := fun _ _ => Except.ok false

/-- A MethodAccess table with only the wildcard rule at full. -/
def requireFullAll : MethodAccess := MethodAccess.empty.require AccessLevel.full

/-- A frame built at level none, iframe attached, one GristDocAPI style
implementation exposed, and the session level then raised to full without
re-registering. -/
def C3frame : Frame :=
  ((((mkFrame (Option.some AccessLevel.none)).buildDom).exposeAPI
    "DocAPI" implConst requireFullAll.checker).setAccess AccessLevel.full)

/-- A ready-type inbound message without a destination tag. -/
def readyMsg : Message := ⟨Option.none, MsgType.ready, "ready"⟩

/-- A frame with its iframe attached and nothing else done. -/
def attachedFrame : Frame := (mkFrame (Option.some AccessLevel.full)).buildDom

/-- A frame with one function exposed through exposeMethod. -/
def C7frame : Frame :=
  (mkFrame (Option.some AccessLevel.full)).exposeMethod
    "mymethod" (fun _ => Except.ok "done") (MinimumLevel.mk AccessLevel.none).checker

/-- A frame constructed with an absent access level, with one function
exposed whose checker requires only the level none. -/
def C10frame : Frame :=
  (mkFrame Option.none).exposeMethod
    "hello" (fun _ => Except.ok "hi") (MinimumLevel.mk AccessLevel.none).checker

/-- A view with three rows, cursor on row 1. -/
def viewEx3 : TableView := ⟨"T1", 1, [1, 2, 3]⟩

/-- A row-set mutation that replaces the row set with four rows. -/
def mut4 : TableView → TableView := fun v => { v with rows := [1, 2, 3, 4] }

/-- An options mutation that changes the stored value on every input:
absent options become some, present options become absent. -/
def flipOpt : Option String → Option String
  | Option.none => Option.some "A"
  | Option.some _ => Option.none

/-! Theorems. -/

/-- Helper: for a non-falsy method name, MethodAccess.check returns the
verdict of the rule resolved exact-name first, then wildcard, then deny. -/
lemma check_eq_resolve (t : MethodAccess) (L : AccessLevel) (m : String)
    (hm : m ≠ "") :
    t.check L (Option.some m) =
      Except.ok (match resolveRule t m with
        | Option.some minimum => isSatisfied L minimum
        | Option.none => false) := by
  unfold MethodAccess.check resolveRule
  simp only [jsFalsyName, Option.getD_some]
  rw [if_neg (by simpa using hm)]
  cases hg : t.get m with
  | some minimum => simp [hg, Option.orElse]
  | none =>
    cases hw : t.get "*" with
    | some minimum => simp [hg, hw, Option.orElse]
    | none => simp [hg, hw, Option.orElse]

/-- Claim C1, counterexample: the claim quantifies over every method name,
but with the empty method name the code throws (the JS test `!method` is
true for the empty string), so the empty table does not return false
there. -/
theorem C1_empty_name_counterexample :
    MethodAccess.empty.check AccessLevel.full (Option.some "") =
      Except.error "Method name is required for MethodAccess check" ∧
    MethodAccess.empty.check AccessLevel.full (Option.some "") ≠ Except.ok false := by
  refine ⟨rfl, ?_⟩
  intro h
  exact Except.noConfusion h

/-- Claim C1 (amended): for every granted level L and every table, check
restricted to NONEMPTY method names returns true exactly when the rule
resolved for the method (exact-name entry first, else wildcard, else
implicit deny) has a minimum at or below L in the order
none < read_table < full; an entryless table returns false for every
nonempty method name; an absent or empty method name makes check throw
instead of returning. -/
theorem check_resolves_rule (t : MethodAccess) (L : AccessLevel) (m : String)
    (hm : m ≠ "") :
    (t.check L (Option.some m) = Except.ok true ↔
      ∃ minimum, resolveRule t m = Option.some minimum ∧ minimum.toNat ≤ L.toNat) ∧
    (t.entries = [] → t.check L (Option.some m) = Except.ok false) ∧
    (∀ m0, jsFalsyName m0 = true →
      t.check L m0 = Except.error "Method name is required for MethodAccess check") := by
  refine ⟨?_, ?_, ?_⟩
  · rw [check_eq_resolve t L m hm]
    cases hr : resolveRule t m with
    | some minimum => simp [isSatisfied]
    | none => simp
  · intro he
    rw [check_eq_resolve t L m hm]
    have hg : ∀ k, t.get k = Option.none := by
      intro k; unfold MethodAccess.get; rw [he]; rfl
    simp [resolveRule, hg]
  · intro m0 h0
    unfold MethodAccess.check
    rw [if_pos h0]

/-- Claim C1 witness: the amended statement at the default GristDocAPI
table, level read_table and the method getDocName. -/
theorem check_resolves_rule_witness :
    (GristDocAPIdefaultAccess.check AccessLevel.read_table (Option.some "getDocName") =
        Except.ok true ↔
      ∃ minimum, resolveRule GristDocAPIdefaultAccess "getDocName" = Option.some minimum ∧
        minimum.toNat ≤ AccessLevel.read_table.toNat) ∧
    (GristDocAPIdefaultAccess.entries = [] →
      GristDocAPIdefaultAccess.check AccessLevel.read_table (Option.some "getDocName") =
        Except.ok false) ∧
    (∀ m0, jsFalsyName m0 = true →
      GristDocAPIdefaultAccess.check AccessLevel.read_table m0 =
        Except.error "Method name is required for MethodAccess check") :=
  check_resolves_rule GristDocAPIdefaultAccess AccessLevel.read_table "getDocName"
    (by decide)

/-- Claim C2, counterexample: with a checker that denies everything, a
call to the method named then returns undefined and raises no failure at
all; and the denied-call failures for two different method names are
identical, so the failure cannot carry the method name. -/
theorem C2_counterexample :
    (wrapObjectCall implConst denyAll AccessLevel.none "then" []).result =
      Except.ok Option.none ∧
    wrapObjectCall implConst denyAll AccessLevel.none "getDocName" [] =
      wrapObjectCall implConst denyAll AccessLevel.none "applyUserActions" [] :=
  ⟨rfl, rfl⟩

/-- Claim C2 (amended): for every wrapped implementation, every method
name OTHER THAN then, and every argument list including the empty one, if
the checker returns false then the underlying implementation is never
invoked and the call raises the access-denied failure, which carries the
attempted granted level (the level is recoverable from the failure) but
not the method name. -/
theorem wrapObject_denies_without_calling {α : Type} (impl : Impl α)
    (checker : Checker) (access : AccessLevel) (m : String) (args : List α)
    (hm : m ≠ "then") (hc : checker access (Option.some m) = Except.ok false) :
    wrapObjectCall impl checker access m args =
      { result := Except.error (throwErrorMsg access),
        implCalled := false, checkerCalled := true } ∧
    (∀ a b : AccessLevel, throwErrorMsg a = throwErrorMsg b → a = b) := by
  constructor
  · unfold wrapObjectCall
    rw [if_neg hm, hc]
  · intro a b
    cases a <;> cases b <;> decide

/-- Claim C2 witness: the amended statement at a concrete implementation,
the deny-all checker, level read_table, method fetchTable and the empty
argument list. -/
theorem wrapObject_denies_without_calling_witness :
    (wrapObjectCall implConst denyAll AccessLevel.read_table "fetchTable" [] =
      { result := Except.error (throwErrorMsg AccessLevel.read_table),
        implCalled := false, checkerCalled := true } ∧
    (∀ a b : AccessLevel, throwErrorMsg a = throwErrorMsg b → a = b)) :=
  wrapObject_denies_without_calling implConst denyAll AccessLevel.read_table
    "fetchTable" [] (by decide) rfl

/-- Claim C9: for every gated wrapper and every granted level, accessing
and invoking the then member returns undefined without invoking the
underlying implementation, without evaluating the access checker, and
without throwing. -/
theorem then_probe_is_inert {α : Type} (impl : Impl α) (checker : Checker)
    (access : AccessLevel) (args : List α) :
    wrapObjectCall impl checker access "then" args =
      { result := Except.ok Option.none, implCalled := false,
        checkerCalled := false } := by
  unfold wrapObjectCall
  rw [if_pos rfl]

/-- Claim C3, counterexample: a frame built at level none with one
implementation exposed behind a wildcard-full table, then raised to full
mid-session without re-registering, still denies the call and reports the
captured level none in the failure, although the current level of the
frame is full. -/
theorem C3_counterexample :
    C3frame.access = AccessLevel.full ∧
    C3frame.callImpl "DocAPI" "fetchTable" [] =
      Option.some { result := Except.error (throwErrorMsg AccessLevel.none),
                    implCalled := false, checkerCalled := true } :=
  ⟨rfl, rfl⟩

/-- Claim C3 (amended): raising the access level mid-session does NOT make
a previously denied exposeAPI call succeed: exposeAPI hands the current
level to wrapObject by value, so every later call through the registered
implementation is gated at the registration-time level whatever the level
is changed to; only registering again after the change gates at the new
level. -/
theorem exposeAPI_captures_level (f : Frame) (name : String) (api : Impl String)
    (checker : Checker) (a2 : AccessLevel) (method : String) (args : List String) :
    ((f.exposeAPI name api checker).setAccess a2).callImpl name method args =
      Option.some (wrapObjectCall api checker f.access method args) ∧
    (((f.exposeAPI name api checker).setAccess a2).exposeAPI name api checker).callImpl
        name method args =
      Option.some (wrapObjectCall api checker a2 method args) := by
  constructor
  · simp [Frame.callImpl, Frame.exposeAPI, Frame.setAccess, registerImpl, List.find?]
  · simp [Frame.callImpl, Frame.exposeAPI, Frame.setAccess, registerImpl, List.find?]

/-- Claim C4: evaluation at the failing input. In the turn in which the
ready event fires with no underlying state change, the record notifier
emits nothing, while the table notifier and the config notifier each emit
their current state exactly once: RecordNotifier keeps the no-op _ready of
BaseEventSource, contradicting both the claim and the comment block of
WidgetFrame.ts saying all of those events are also sent on ready. -/
theorem recordNotifier_misses_ready_catchup :
    readyEmissions RecordNotifier false viewEx3 = [] ∧
    readyEmissions TableNotifier false viewEx3 =
      [Emission.record "T1" (Option.some 1) [1, 2, 3] true] ∧
    readyEmissions (ConfigNotifier AccessLevel.full) false (Option.some "opts") =
      [Emission.config (Option.some "opts") AccessLevel.full] :=
  ⟨rfl, rfl, rfl⟩

/-- Claim C5, counterexample: a sequence of two ready-type messages from
the attached iframe triggers the ready event twice, not exactly once. -/
theorem C5_counterexample :
    (attachedFrame.onMessages [⟨true, readyMsg⟩, ⟨true, readyMsg⟩]).countP
      (fun eff => eff.readyTriggered) = 2 := by
  rfl

/-- Claim C5 (amended): per attachment, the ready event is triggered once
per accepted ready-type message — on EVERY ready-type message of the
inbound sequence, not only the first — and every accepted message,
ready-type ones included, is still forwarded into normal processing with
only a reserved destination tag cleared. -/
theorem ready_per_ready_message (f : Frame) (es : List InEvent) :
    (f.onMessages es).countP (fun eff => eff.readyTriggered) =
      es.countP (fun e => f.accepts e && decide (e.data.mtype = MsgType.ready)) ∧
    (f.onMessages es).filterMap MsgEffects.forwarded =
      (es.filter (fun e => f.accepts e)).map (fun e => clearGrist e.data) := by
  constructor
  · induction es with
    | nil => rfl
    | cons e es ih =>
      simp only [Frame.onMessages, List.map_cons, List.countP_cons] at *
      rw [ih]
      by_cases h : f.accepts e = true
      · simp [Frame.onMessage, h]
      · simp [Frame.onMessage, Bool.eq_false_iff.mpr h,
              Bool.and_eq_true, h]
  · induction es with
    | nil => rfl
    | cons e es ih =>
      simp only [Frame.onMessages, List.map_cons, List.filterMap_cons,
                 List.filter_cons] at *
      by_cases h : f.accepts e = true
      · simp [Frame.onMessage, h, ih]
      · simp [Frame.onMessage, Bool.eq_false_iff.mpr h, h, ih]

/-- Claim C6: an inbound message from the attached iframe whose
destination equals the reserved tag grist is dispatched locally with the
tag cleared; the cleared message routes locally (it is not forwarded
further), and its observable view — routing decision, type and payload —
is identical to that of the same message with no destination tag ever
set. -/
theorem grist_dest_intercepted (f : Frame) (e : InEvent)
    (hacc : f.accepts e = true) (hd : e.data.mdest = Option.some "grist") :
    f.onMessage e =
      { readyTriggered := decide (e.data.mtype = MsgType.ready),
        forwarded := Option.some { e.data with mdest := Option.some "" } } ∧
    routesLocally { e.data with mdest := Option.some "" } = true ∧
    Message.obsView { e.data with mdest := Option.some "" } =
      Message.obsView { e.data with mdest := Option.none } := by
  refine ⟨?_, rfl, ?_⟩
  · simp [Frame.onMessage, hacc, clearGrist, hd]
  · simp [Message.obsView, routesLocally]

/-- Claim C6 witness: a concrete custom-type message addressed to grist,
received by an attached undisposed frame. -/
theorem grist_dest_intercepted_witness :
    attachedFrame.onMessage ⟨true, ⟨Option.some "grist", MsgType.custom, "p"⟩⟩ =
      { readyTriggered :=
          decide ((⟨Option.some "grist", MsgType.custom, "p"⟩ : Message).mtype = MsgType.ready),
        forwarded := Option.some ⟨Option.some "", MsgType.custom, "p"⟩ } ∧
    routesLocally ⟨Option.some "", MsgType.custom, "p"⟩ = true ∧
    Message.obsView ⟨Option.some "", MsgType.custom, "p"⟩ =
      Message.obsView ⟨Option.none, MsgType.custom, "p"⟩ :=
  grist_dest_intercepted attachedFrame ⟨true, ⟨Option.some "grist", MsgType.custom, "p"⟩⟩
    (by decide) rfl

/-- Helper: running the per-registration unregister callbacks over every
registered name empties the registration list. -/
lemma foldl_unregister_all (l : List String) (regs : List ImplReg)
    (h : ∀ r ∈ regs, r.name ∈ l) : l.foldl unregisterImpl regs = [] := by
  induction l generalizing regs with
  | nil =>
    cases regs with
    | nil => rfl
    | cons r rs => exact absurd (h r (List.mem_cons_self r rs)) (List.not_mem_nil r.name)
  | cons a l ih =>
    simp only [List.foldl_cons]
    apply ih
    intro r hr
    have hmem : r ∈ regs ∧ r.name ≠ a := by
      simpa [unregisterImpl] using hr
    rcases List.mem_cons.mp (h r hmem.1) with h3 | h3
    · exact absurd h3 hmem.2
    · exact h3

/-- Claim C7, counterexample: a frame with one function registered through
exposeMethod still holds that registration after disposal — exposeMethod,
unlike exposeAPI, hooks no unregistration to disposal — so disposal does
not unregister every implementation registered via exposeAPI or
exposeMethod. -/
theorem C7_counterexample :
    C7frame.dispose.disposed = true ∧
    C7frame.dispose.funcRegs.map FuncReg.name = ["mymethod"] :=
  ⟨rfl, rfl⟩

/-- Claim C7 (amended): disposing the bridge stops inbound message
acceptance, replaces the outbound sender with a no-op, and unregisters
every implementation registered via exposeAPI — those registered via
exposeMethod are NOT unregistered; disposing twice and unregistering an
already-unregistered name are failure-free no-ops with no duplicate
teardown side effects. -/
theorem dispose_teardown (f : Frame) (hf : f.disposed = false) :
    f.dispose.disposed = true ∧
    f.dispose.sendNoop = true ∧
    f.dispose.implRegs = [] ∧
    (∀ e, f.dispose.accepts e = false) ∧
    f.dispose.dispose = f.dispose ∧
    (∀ (regs : List ImplReg) (name : String),
      unregisterImpl (unregisterImpl regs name) name = unregisterImpl regs name) := by
  have hd : f.dispose =
      { f with disposed := true, sendNoop := true,
               implRegs := (f.implRegs.map ImplReg.name).foldl unregisterImpl f.implRegs } := by
    unfold Frame.dispose
    rw [if_neg (by simp [hf])]
  have hempty : (f.implRegs.map ImplReg.name).foldl unregisterImpl f.implRegs = [] :=
    foldl_unregister_all _ _ (fun r hr => List.mem_map_of_mem ImplReg.name hr)
  refine ⟨by rw [hd], by rw [hd], by rw [hd]; exact hempty, ?_, ?_, ?_⟩
  · intro e
    rw [hd]
    simp [Frame.accepts]
  · rw [hd]
    unfold Frame.dispose
    rw [if_pos rfl]
  · intro regs name
    simp [unregisterImpl, List.filter_filter]

/-- Claim C7 witness: the amended statement at a concrete undisposed frame
holding one exposeAPI registration. -/
theorem dispose_teardown_witness :
    (C3frame.dispose.disposed = true ∧
    C3frame.dispose.sendNoop = true ∧
    C3frame.dispose.implRegs = [] ∧
    (∀ e, C3frame.dispose.accepts e = false) ∧
    C3frame.dispose.dispose = C3frame.dispose ∧
    (∀ (regs : List ImplReg) (name : String),
      unregisterImpl (unregisterImpl regs name) name = unregisterImpl regs name)) :=
  dispose_teardown C3frame rfl

/-- Helper: the state component of the turn fold is the plain fold of the
mutations, whatever the scheduled flag started as. -/
lemma turnFold_fst (n : NotifierModel σ) (muts : List (σ → σ)) (s : σ) (b : Bool) :
    (muts.foldl (turnStep n) (s, b)).1 = muts.foldl (fun a m => m a) s := by
  induction muts generalizing s b with
  | nil => rfl
  | cons m ms ih =>
    simp only [List.foldl_cons, turnStep]
    exact ih (m s) _

/-- Helper: once the debounced update is scheduled within a turn it stays
scheduled to the end of the turn. -/
lemma turnFold_snd_true (n : NotifierModel σ) (muts : List (σ → σ)) (s : σ) :
    (muts.foldl (turnStep n) (s, true)).2 = true := by
  induction muts generalizing s with
  | nil => rfl
  | cons m ms ih =>
    simp only [List.foldl_cons, turnStep, Bool.true_or]
    exact ih (m s)

/-- Helper: a nonempty turn whose first observed change schedules the
debounced update (and so for any turn in which every observed change
schedules it) ends with exactly one _update run, on the final state. -/
lemma turn_scheduled (n : NotifierModel σ) (s : σ) (muts : List (σ → σ))
    (h : muts ≠ [])
    (hs : ∀ (prev : σ) (m : σ → σ), m ∈ muts → n.schedules prev (m prev) = true) :
    (turnEmissions n false s muts).2 = [n.update (muts.foldl (fun a m => m a) s)] := by
  cases muts with
  | nil => exact absurd rfl h
  | cons m ms =>
    unfold turnEmissions
    simp only [List.foldl_cons, turnStep, hs s m (List.mem_cons_self m ms),
               Bool.or_true, Bool.false_or]
    simp [turnFold_snd_true, turnFold_fst]

/-- Helper: a turn in which every mutation leaves the state at a value the
change listener judges equal to the previous one schedules nothing, so no
emission occurs at the end of the turn. -/
lemma turn_value_preserving (n : NotifierModel σ) (s : σ) (muts : List (σ → σ))
    (hfix : ∀ m ∈ muts, ∀ x, m x = x)
    (hguard : ∀ x, n.schedules x x = false) :
    (turnEmissions n false s muts).2 = [] := by
  have key : ∀ (l : List (σ → σ)) (o : σ), (∀ m ∈ l, ∀ x, m x = x) →
      l.foldl (turnStep n) (o, false) = (o, false) := by
    intro l
    induction l with
    | nil => intro o _; rfl
    | cons m ms ih =>
      intro o hid
      have h1 : turnStep n (o, false) m = (o, false) := by
        simp [turnStep, hid m (List.mem_cons_self m ms) o, hguard]
      rw [List.foldl_cons, h1]
      exact ih o (fun m2 hm2 => hid m2 (List.mem_cons_of_mem m hm2))
  unfold turnEmissions
  rw [key muts s hfix]
  simp

/-- Claim C8: for every notifier and every N >= 1 synchronous state
mutations within one scheduling turn, exactly one emission occurs and it
reflects the state after the Nth mutation: the record notifier
(dataChange false) and the table notifier (dataChange true) coalesce any
nonempty burst of observed changes; the config notifier coalesces any
nonempty burst of genuine mutations — ones that change the stored options
value, which is what its isEqual guard lets schedule — into one emission
of the final options, and a turn whose replacements all preserve the
value (equal in the sense of the guard) emits nothing at all. -/
theorem debounce_coalesces
    (s : TableView) (muts : List (TableView → TableView)) (h : muts ≠ [])
    (lvl : AccessLevel) (o : Option String)
    (omuts : List (Option String → Option String)) (ho : omuts ≠ [])
    (hmut : ∀ m ∈ omuts, ∀ x, m x ≠ x)
    (pmuts : List (Option String → Option String))
    (hpres : ∀ m ∈ pmuts, ∀ x, m x = x) :
    ((turnEmissions RecordNotifier false s muts).2 =
        [Emission.record (muts.foldl (fun a m => m a) s).tableId
          (rowIdOut (muts.foldl (fun a m => m a) s).cursorRowId)
          (muts.foldl (fun a m => m a) s).rows false] ∧
      (turnEmissions RecordNotifier false s muts).2.length = 1) ∧
    ((turnEmissions TableNotifier false s muts).2 =
        [Emission.record (muts.foldl (fun a m => m a) s).tableId
          (rowIdOut (muts.foldl (fun a m => m a) s).cursorRowId)
          (muts.foldl (fun a m => m a) s).rows true] ∧
      (turnEmissions TableNotifier false s muts).2.length = 1) ∧
    ((turnEmissions (ConfigNotifier lvl) false o omuts).2 =
        [Emission.config (omuts.foldl (fun a m => m a) o) lvl] ∧
      (turnEmissions (ConfigNotifier lvl) false o omuts).2.length = 1) ∧
    (turnEmissions (ConfigNotifier lvl) false o pmuts).2 = [] := by
  have hrec := turn_scheduled RecordNotifier s muts h (fun prev m hm => rfl)
  have htab := turn_scheduled TableNotifier s muts h (fun prev m hm => rfl)
  have hcfg := turn_scheduled (ConfigNotifier lvl) o omuts ho
    (fun prev m hm => by
      simp only [ConfigNotifier, ne_eq, decide_not, Bool.not_eq_true',
                 decide_eq_false_iff_not]
      exact fun he => hmut m hm prev he.symm)
  have hpre := turn_value_preserving (ConfigNotifier lvl) o pmuts hpres
    (fun x => by simp [ConfigNotifier])
  exact ⟨⟨hrec.trans rfl, by rw [hrec]; rfl⟩,
         ⟨htab.trans rfl, by rw [htab]; rfl⟩,
         ⟨hcfg.trans rfl, by rw [hcfg]; rfl⟩,
         hpre⟩

/-- Claim C8 witness: a view with three rows receives two row-set changes
to four rows within one turn — the record and table notifiers each emit
exactly once, the table one with dataChange true carrying the final
four-row state; the config notifier over two genuine options flips emits
the final options exactly once, and over a value-preserving replacement
emits nothing. -/
theorem debounce_coalesces_witness :
    (((turnEmissions RecordNotifier false viewEx3 [mut4, mut4]).2 =
        [Emission.record ([mut4, mut4].foldl (fun a m => m a) viewEx3).tableId
          (rowIdOut ([mut4, mut4].foldl (fun a m => m a) viewEx3).cursorRowId)
          ([mut4, mut4].foldl (fun a m => m a) viewEx3).rows false] ∧
      (turnEmissions RecordNotifier false viewEx3 [mut4, mut4]).2.length = 1) ∧
    ((turnEmissions TableNotifier false viewEx3 [mut4, mut4]).2 =
        [Emission.record ([mut4, mut4].foldl (fun a m => m a) viewEx3).tableId
          (rowIdOut ([mut4, mut4].foldl (fun a m => m a) viewEx3).cursorRowId)
          ([mut4, mut4].foldl (fun a m => m a) viewEx3).rows true] ∧
      (turnEmissions TableNotifier false viewEx3 [mut4, mut4]).2.length = 1) ∧
    ((turnEmissions (ConfigNotifier AccessLevel.full) false Option.none
        [flipOpt, flipOpt]).2 =
        [Emission.config ([flipOpt, flipOpt].foldl (fun a m => m a) Option.none)
          AccessLevel.full] ∧
      (turnEmissions (ConfigNotifier AccessLevel.full) false Option.none
        [flipOpt, flipOpt]).2.length = 1) ∧
    (turnEmissions (ConfigNotifier AccessLevel.full) false Option.none
      [fun x => x]).2 = []) ∧
    (turnEmissions TableNotifier false viewEx3 [mut4, mut4]).2 =
      [Emission.record "T1" (Option.some 1) [1, 2, 3, 4] true] ∧
    (turnEmissions (ConfigNotifier AccessLevel.full) false Option.none
      [flipOpt, flipOpt]).2 =
      [Emission.config Option.none AccessLevel.full] :=
  ⟨debounce_coalesces viewEx3 [mut4, mut4] (List.cons_ne_nil _ _)
      AccessLevel.full Option.none [flipOpt, flipOpt] (List.cons_ne_nil _ _)
      (by
        intro m hm x
        have hmf : m = flipOpt := by
          rcases List.mem_cons.mp hm with h1 | h1
          · exact h1
          · exact List.mem_singleton.mp h1
        subst hmf
        cases x <;> simp [flipOpt])
      [fun x => x]
      (by
        intro m hm x
        have hmi : m = fun x => x := List.mem_singleton.mp hm
        subst hmi
        rfl),
    rfl, rfl⟩

/-- Claim C10, counterexample: on a bridge constructed with an absent
access level, a call gated by a checker whose minimum is none succeeds
while the level is still the defaulted none — so not every gated call is
denied until the level is explicitly changed. -/
theorem C10_counterexample :
    C10frame.access = AccessLevel.none ∧
    C10frame.callFunc "hello" [] = Option.some (Except.ok "hi") :=
  ⟨rfl, rfl⟩

/-- Claim C10 (amended): a bridge constructed with an absent access level
is identical to one constructed with the level none — the stored level
becomes none — so every subsequently gated call behaves exactly as at the
explicit level none: in particular a checker requiring any minimum above
none denies until the level is changed, while one requiring only none
grants. -/
theorem absent_access_defaults_to_none :
    mkFrame Option.none = mkFrame (Option.some AccessLevel.none) ∧
    (mkFrame Option.none).access = AccessLevel.none ∧
    (∀ minimum : AccessLevel, minimum ≠ AccessLevel.none →
      (MinimumLevel.mk minimum).check AccessLevel.none = false) ∧
    (MinimumLevel.mk AccessLevel.none).check AccessLevel.none = true := by
  refine ⟨rfl, rfl, ?_, rfl⟩
  intro minimum hm
  cases minimum with
  | none => exact absurd rfl hm
  | read_table => rfl
  | full => rfl

/-- Claim C10 witness: the denial conjunct of the amended statement at the
concrete minimum read_table. -/
theorem absent_access_defaults_to_none_witness :
    (MinimumLevel.mk AccessLevel.read_table).check AccessLevel.none = false :=
  absent_access_defaults_to_none.2.2.1 AccessLevel.read_table (by decide)

end GristWidgetFrame
